import Mathlib

/-!
Verification of the k9s port-forward / benchmark core (src/internal/views/forward.go,
src/internal/ui/types.go) against its natural-language specification.

The Go code is shallowly embedded: pure helpers become Lean functions, the mutable
registry / benchmark slot become explicit state records, and the two background
goroutines (runForward, runBenchmark) become explicit step traces whose effect on the
shared state is computed by an executable interpreter.
-/

namespace K9s

/-! ## Benchmark configuration (config.BenchConfig) -/

/-- config.BenchConfig: concurrency C, request count N, HTTP method/path, and the
target name. Mirrors the Go struct used by forward.go (C, N, HTTP.Method, HTTP.Path,
Name). -/
structure BenchConfig where
  C : Int
  N : Int
  Method : String
  Path : String
  Name : String
deriving DecidableEq, Repr

/-- The Go zero value of config.BenchConfig, returned by a failed map lookup. -/
def zeroBenchConfig : BenchConfig :=
  { C := 0, N := 0, Method := "", Path := "", Name := "" }

/-- Modelled from the spec: helper containerID (defined outside src/), the
per-container override key, containerID = path + "|" + container. -/
def containerID (path co : String) : String :=
  path ++ "|" ++ co

/-- loadConfig (src/internal/views/forward.go lines 303-318): start from the defaults
dc, dn; look the id up in the container map; when present, take the override's C and N
field-by-field, but only where the override field is non-zero. Returns the effective
(c, n) together with the looked-up config (the Go zero value when absent). The Go map
is embedded as a lookup function into Option. -/
def loadConfig (dc dn : Int) (id : String) (cc : String → Option BenchConfig) :
    Int × Int × BenchConfig :=
  match cc id with
  | none => (dc, dn, zeroBenchConfig)
  | some cfg =>
      ((if cfg.C ≠ 0 then cfg.C else dc), (if cfg.N ≠ 0 then cfg.N else dn), cfg)

/-- The configuration selection performed by benchCmd (forward.go lines 149-155):
cfg starts as the defaults; when the container map has an entry for
containerID(sel, co) the entry replaces cfg wholesale (cfg = b); finally cfg.Name is
set to the selection. This is the config handed to newBenchmark, i.e. the config a
Run actually uses. -/
def benchCmdConfig (dflt : BenchConfig) (cc : String → Option BenchConfig)
    (sel co : String) : BenchConfig :=
  let cfg := match cc (containerID sel co) with
    | some b => b
    | none => dflt
  { cfg with Name := sel }

/-! Concrete instances for the spec's merge example: defaults (C=10, N=100) and a
per-container override (C=0, N=50) stored under the key benchCmd itself looks up. -/

/-- The spec example's defaults: C=10, N=100. -/
def defaults10 : BenchConfig :=
  { C := 10, N := 100, Method := "GET", Path := "/", Name := "" }

/-- The spec example's override: C=0, N=50 (zero concurrency field). -/
def override050 : BenchConfig :=
  { C := 0, N := 50, Method := "", Path := "", Name := "" }

/-- A container-override store holding override050 under the key
containerID "ns/po|co" "co" (the key benchCmd computes for selection "ns/po|co" and
container "co"). -/
def ccx : String → Option BenchConfig := fun id =>
  if id = containerID "ns/po|co" "co" then some override050 else none

/-- Claim C1, counterexample: with defaults (C=10, N=100) and the per-container
override (C=0, N=50) in place, the field-by-field merge (loadConfig) yields C=10, but
the config actually used by a Run (benchCmdConfig, which replaces the defaults
wholesale) has C=0 — so the effective benchmark config used by a Run is not the
field-by-field merge. -/
theorem c1_counterexample :
    (loadConfig 10 100 (containerID "ns/po|co" "co") ccx).1 = 10 ∧
    (loadConfig 10 100 (containerID "ns/po|co" "co") ccx).2.1 = 50 ∧
    (benchCmdConfig defaults10 ccx "ns/po|co" "co").C = 0 ∧
    (benchCmdConfig defaults10 ccx "ns/po|co" "co").C ≠
      (loadConfig 10 100 (containerID "ns/po|co" "co") ccx).1 := by
  decide

/-- Claim C1 (amended): the field-by-field merge — each of C and N taken from the
override only when non-zero, falling back to the default otherwise, so that defaults
(C=10, N=100) merged with override (C=0, N=50) give (10, 50) — is what loadConfig
computes for the displayed table columns; the config handed to a Run by benchCmd is
instead the stored override taken wholesale (with Name set to the selection), and the
defaults taken wholesale when no override is stored. -/
theorem c1_amended (dc dn : Int) (dflt : BenchConfig)
    (cc : String → Option BenchConfig) (sel co : String) :
    (∀ b : BenchConfig, cc (containerID sel co) = some b →
      loadConfig dc dn (containerID sel co) cc =
        ((if b.C = 0 then dc else b.C), (if b.N = 0 then dn else b.N), b) ∧
      benchCmdConfig dflt cc sel co = { b with Name := sel }) ∧
    (cc (containerID sel co) = none →
      loadConfig dc dn (containerID sel co) cc = (dc, dn, zeroBenchConfig) ∧
      benchCmdConfig dflt cc sel co = { dflt with Name := sel }) := by
  constructor
  · intro b hb
    constructor
    · simp only [loadConfig, hb]
      rcases Decidable.em (b.C = 0) with hC | hC <;>
        rcases Decidable.em (b.N = 0) with hN | hN <;>
          simp [hC, hN]
    · simp [benchCmdConfig, hb]
  · intro hb
    constructor
    · simp [loadConfig, hb]
    · simp [benchCmdConfig, hb]

/-- Claim C1 amended, witness: the amended theorem evaluated at the spec example —
defaults (C=10, N=100), override (C=0, N=50): loadConfig merges to (10, 50) and
benchCmdConfig returns the override wholesale. -/
theorem c1_amended_witness :
    loadConfig 10 100 (containerID "ns/po|co" "co") ccx = (10, 50, override050) ∧
    benchCmdConfig defaults10 ccx "ns/po|co" "co" =
      { override050 with Name := "ns/po|co" } := by
  have h := (c1_amended 10 100 defaults10 ccx "ns/po|co" "co").1 override050 (by decide)
  exact ⟨by rw [h.1]; decide, h.2⟩

/-! ## Port-forward lifecycle (containerView.portForward / runForward)

The shared rendering state named by the spec — the forwarder registry map
(app.forwarders), a session's visible active flag, and the benchmark slot — is
embedded as an explicit record, and the two functions are embedded as the sequence of
steps the executing thread performs, in program order. -/

/-- A mutation of the shared rendering state: registry insert/delete
(app.forwarders), a session's active flag (pf.SetActive), or clearing the benchmark
slot (v.bench = nil). -/
inductive SharedWrite
  | registerFwd (fqn : String)
  | removeFwd (fqn : String)
  | setActive (fqn : String) (b : Bool)
  | clearBenchSlot
deriving DecidableEq, Repr

/-- One step of a thread's execution:
enqueue — marshal a job of shared writes to the UI dispatcher (QueueUpdate /
QueueUpdateDraw); write — perform a shared write directly on the executing thread;
startPF — pf.Start (transport setup, touches no shared rendering state); launchGo —
a go statement launching the background goroutine; block — the blocking background
call (f.ForwardPorts or bench.run); reportErr — v.app.flash reporting an error. -/
inductive Step
  | enqueue (ws : List SharedWrite)
  | write (w : SharedWrite)
  | startPF
  | launchGo
  | block
  | reportErr
deriving DecidableEq, Repr

/-- runForward (src/internal/ui/types.go second part, lines 202-218), as the step
sequence of the background goroutine, parameterized by whether f.ForwardPorts()
returns an error:
1. QueueUpdateDraw of a job that inserts the session into app.forwarders;
2. pf.SetActive(true), a direct write on this background thread;
3. the blocking f.ForwardPorts() call;
then, if ForwardPorts returned an error, flash the error and return; otherwise
QueueUpdateDraw of a job deleting the registry entry and setting active to false. -/
def runForwardSteps (fqn : String) (transportErr : Bool) : List Step :=
  [Step.enqueue [SharedWrite.registerFwd fqn],
   Step.write (SharedWrite.setActive fqn true),
   Step.block] ++
  (if transportErr then [Step.reportErr]
   else [Step.enqueue [SharedWrite.removeFwd fqn, SharedWrite.setActive fqn false]])

/-- portForward (same file, lines 187-200), the part run synchronously on the UI
thread: pf.Start, then either an error flash (when Start fails) or the go statement
launching runForward. It performs no shared-state write itself. -/
def portForwardSteps (startErr : Bool) : List Step :=
  if startErr then [Step.startPF, Step.reportErr]
  else [Step.startPF, Step.launchGo]

/-- runBenchmark (src/internal/views/forward.go lines 172-189), as the background
goroutine's step sequence: the blocking bench.run, whose completion callback
enqueues (QueueUpdate) the job that reports the outcome and clears the benchmark
slot (v.bench = nil). -/
def runBenchmarkSteps : List Step :=
  [Step.block, Step.enqueue [SharedWrite.clearBenchSlot]]

/-- The observable shared rendering state: the registry's registered fqns, the set of
fqns whose session has active = true, and how many error reports were flashed. -/
structure RegState where
  forwarders : List String
  activeFqns : List String
  errReports : Nat
deriving DecidableEq, Repr

/-- Apply one shared write to the state. Registry insert and active-set insert model
Go map/field assignment (idempotent on the key); removal models delete / active
reset. Clearing the benchmark slot does not touch the registry state. -/
def applyWrite (s : RegState) : SharedWrite → RegState
  | SharedWrite.registerFwd f =>
      { s with forwarders :=
          if f ∈ s.forwarders then s.forwarders else s.forwarders ++ [f] }
  | SharedWrite.removeFwd f => { s with forwarders := s.forwarders.erase f }
  | SharedWrite.setActive f true =>
      { s with activeFqns :=
          if f ∈ s.activeFqns then s.activeFqns else s.activeFqns ++ [f] }
  | SharedWrite.setActive f false => { s with activeFqns := s.activeFqns.erase f }
  | SharedWrite.clearBenchSlot => s

/-- Execute one step's effect on the shared state, in the schedule where every
dispatcher job runs as soon as it is enqueued (the fully drained schedule). -/
def execStep (s : RegState) : Step → RegState
  | Step.enqueue ws => ws.foldl applyWrite s
  | Step.write w => applyWrite s w
  | Step.reportErr => { s with errReports := s.errReports + 1 }
  | _ => s

/-- Execute a step sequence on the shared state. -/
def execSteps (s : RegState) (steps : List Step) : RegState :=
  steps.foldl execStep s

/-- The initial shared state: empty registry, no active session, no reports. -/
def regInit : RegState := { forwarders := [], activeFqns := [], errReports := 0 }

/-- Claim C2, counterexample: a successful Start (portForward) launches the
background goroutine yet performs no registry write itself, so reading the registry
immediately after Start returns — before any background or dispatcher step has run —
shows no entry for the new session's fqn; registration is only the first job of the
background trace. -/
theorem c2_counterexample :
    Step.launchGo ∈ portForwardSteps false ∧
    "ns/po|co" ∉ (execSteps regInit (portForwardSteps false)).forwarders ∧
    Step.enqueue [SharedWrite.registerFwd "ns/po|co"] ∈
      runForwardSteps "ns/po|co" false := by
  decide

/-- Claim C2 (amended): Start (portForward) itself performs no registry or
active-flag mutation — registration is not synchronous in Start; instead, the
registration job is the very first step of the background goroutine (enqueued to the
UI dispatcher before the blocking transport call), so the entry appears once the
dispatcher executes that job, not necessarily by the time Start returns. -/
theorem c2_amended (e : Bool) (s : RegState) (fqn : String) :
    (execSteps s (portForwardSteps e)).forwarders = s.forwarders ∧
    (execSteps s (portForwardSteps e)).activeFqns = s.activeFqns ∧
    (runForwardSteps fqn e).head? =
      some (Step.enqueue [SharedWrite.registerFwd fqn]) := by
  cases e <;> simp [portForwardSteps, runForwardSteps, execSteps, execStep]

/-- Claim C3, counterexample: in a run whose transport call fails, the session's
active flag is still set to true — and it is set before the blocking transport call
(step 2 of the trace precedes the block step), hence before any establishment — and
after the failed run completes the flag is still true. So the false→true transition
neither waits for successful establishment nor is suppressed by a transport
failure. -/
theorem c3_counterexample :
    runForwardSteps "ns/po|co" true =
      [Step.enqueue [SharedWrite.registerFwd "ns/po|co"],
       Step.write (SharedWrite.setActive "ns/po|co" true),
       Step.block, Step.reportErr] ∧
    "ns/po|co" ∈ (execSteps regInit (runForwardSteps "ns/po|co" true)).activeFqns := by
  decide

/-- Claim C3 (amended): in every run — transport failure or not — the active flag is
set to true unconditionally before the blocking transport call: after the first two
steps (registration job, SetActive(true)) the flag is already true while the
transport step has not yet run; a failed run ends with the flag still true, and only
an error-free run resets it to false in its cleanup job. -/
theorem c3_amended (fqn : String) (e : Bool) :
    fqn ∈ (execSteps regInit ((runForwardSteps fqn e).take 2)).activeFqns ∧
    (runForwardSteps fqn e).take 3 =
      [Step.enqueue [SharedWrite.registerFwd fqn],
       Step.write (SharedWrite.setActive fqn true), Step.block] ∧
    fqn ∈ (execSteps regInit (runForwardSteps fqn true)).activeFqns ∧
    (execSteps regInit (runForwardSteps fqn false)).activeFqns = [] := by
  cases e <;>
    simp [runForwardSteps, execSteps, execStep, applyWrite, regInit]

/-- Claim C4, counterexample: after a run whose transport call returned an error, the
failure has been reported exactly once, but the registry still holds the session's
entry (and its active flag is still true) — the error path of runForward returns
without removing the entry. -/
theorem c4_counterexample :
    (execSteps regInit (runForwardSteps "ns/po|co" true)).errReports = 1 ∧
    "ns/po|co" ∈ (execSteps regInit (runForwardSteps "ns/po|co" true)).forwarders := by
  decide

/-- Claim C4 (amended): when the blocking transport call returns with an error, the
session reports the failure exactly once but does not remove its registry entry —
the failed session remains registered and marked active; only an error-free return
removes the entry and resets the active flag (with no error report). -/
theorem c4_amended (fqn : String) :
    execSteps regInit (runForwardSteps fqn true) =
      { forwarders := [fqn], activeFqns := [fqn], errReports := 1 } ∧
    execSteps regInit (runForwardSteps fqn false) =
      { forwarders := [], activeFqns := [], errReports := 0 } := by
  simp [runForwardSteps, execSteps, execStep, applyWrite, regInit]

/-- Claim C9, counterexample: the background goroutine of runForward performs a
direct write of shared rendering state — it sets the session's visible active flag
to true on the background thread itself, not via a dispatcher job. -/
theorem c9_counterexample :
    Step.write (SharedWrite.setActive "ns/po|co" true) ∈
      runForwardSteps "ns/po|co" false := by
  decide

/-- Claim C9 (amended): in the background traces of runForward and runBenchmark,
every registry-map mutation and the benchmark-slot clear are marshalled as dispatcher
jobs — the sole direct background write of shared rendering state is the session's
active flag being set to true before the transport call (and, symmetrically, any
direct write occurring in those traces is exactly that one). -/
theorem c9_amended (fqn : String) (e : Bool) (w : SharedWrite)
    (h : Step.write w ∈ runForwardSteps fqn e ++ runBenchmarkSteps) :
    w = SharedWrite.setActive fqn true := by
  cases e <;> simp [runForwardSteps, runBenchmarkSteps] at h <;> exact h

/-- Claim C9 amended, witness: the single direct write present in the traces
satisfies the amended theorem's conclusion. -/
theorem c9_amended_witness :
    Step.write (SharedWrite.setActive "a|b" true) ∈
      runForwardSteps "a|b" false ++ runBenchmarkSteps ∧
    SharedWrite.setActive "a|b" true = SharedWrite.setActive "a|b" true := by
  refine ⟨by decide, ?_⟩
  exact c9_amended "a|b" false (SharedWrite.setActive "a|b" true) (by decide)

/-! ## Benchmark orchestrator (forwardView.benchCmd / benchStopCmd / runBenchmark) -/

/-- The single active benchmark session held in v.bench: its canceled flag and its
configuration. -/
structure Bench where
  canceled : Bool
  cfg : BenchConfig
deriving DecidableEq, Repr

/-- The orchestrator's state: the single active-session slot v.bench (none = nil). -/
structure OrchState where
  bench : Option Bench
deriving DecidableEq, Repr

/-- The outcome benchCmd reports. -/
inductive RunOutcome
  | started
  | alreadyRunning
  | benchInitFailed
  | noSelection
deriving DecidableEq, Repr

/-- benchCmd (src/internal/views/forward.go lines 138-170): return immediately when
nothing is selected; flash "Only one benchmark allowed at a time" and leave the slot
unchanged when v.bench is non-nil; otherwise build the config and assign
v.bench = newBenchmark(...). initErr models newBenchmark failing (its code is outside
src/; per the Go multiple assignment the slot then receives the nil result). On
success the slot holds a fresh, non-canceled session and the load generator is
launched. -/
def benchCmd (s : OrchState) (sel : String) (cfg : BenchConfig) (initErr : Bool) :
    OrchState × RunOutcome :=
  if sel = "" then (s, RunOutcome.noSelection)
  else if s.bench.isSome then (s, RunOutcome.alreadyRunning)
  else if initErr then ({ bench := none }, RunOutcome.benchInitFailed)
  else ({ bench := some { canceled := false, cfg := cfg } }, RunOutcome.started)

/-- Modelled from the spec: benchmark.cancel (defined outside src/) transitions the
running session to Canceled — it sets the session's canceled flag and signals the
load generator's cancellation handle. -/
def benchCancel (b : Bench) : Bench :=
  { b with canceled := true }

/-- benchStopCmd (forward.go lines 127-136): when v.bench is non-nil, cancel it; the
slot itself is left occupied — it is not cleared here. -/
def benchStopCmd (s : OrchState) : OrchState :=
  match s.bench with
  | some b => { bench := some (benchCancel b) }
  | none => s

/-- The completion callback queued by runBenchmark (forward.go lines 174-187):
report "Benchmark canceled" when cancellation had been requested, "Benchmark
Completed!" otherwise, then clear the slot (v.bench = nil). In the program the
callback only ever runs with v.bench non-nil (it is the one clearer); the none branch
records no report. -/
def benchCompleted (s : OrchState) : OrchState × Option String :=
  match s.bench with
  | some b =>
      ({ bench := none },
       some (if b.canceled then "Benchmark canceled" else "Benchmark Completed!"))
  | none => ({ bench := none }, none)

/-- Claim C5: with a session in the slot, a Run attempt (non-empty selection) fails
with the already-running error and leaves the state — hence the slot — unchanged;
cancellation keeps the slot occupied; the completion callback clears the slot; and
from a cleared slot a Run succeeds, installing a fresh non-canceled session. So the
callback's clear is the only transition among these that empties the slot and lets a
new Run start. -/
theorem c5_single_flight (s : OrchState) (sel : String) (cfg : BenchConfig)
    (initErr : Bool) (b : Bench) (hb : s.bench = some b) (hsel : sel ≠ "") :
    benchCmd s sel cfg initErr = (s, RunOutcome.alreadyRunning) ∧
    (benchStopCmd s).bench = some (benchCancel b) ∧
    (benchCompleted s).1.bench = none ∧
    benchCmd { bench := none } sel cfg false =
      ({ bench := some { canceled := false, cfg := cfg } }, RunOutcome.started) := by
  refine ⟨?_, ?_, ?_, ?_⟩
  · simp [benchCmd, hsel, hb]
  · simp [benchStopCmd, hb]
  · simp [benchCompleted, hb]
  · simp [benchCmd, hsel]

/-- Claim C5, witness: the single-flight theorem at a concrete running session
(target "svc-a", config C=5, N=200). -/
theorem c5_single_flight_witness :
    benchCmd { bench := some { canceled := false, cfg := defaults10 } }
        "svc-a" defaults10 false =
      ({ bench := some { canceled := false, cfg := defaults10 } },
       RunOutcome.alreadyRunning) ∧
    (benchStopCmd { bench := some { canceled := false, cfg := defaults10 } }).bench =
      some (benchCancel { canceled := false, cfg := defaults10 }) ∧
    (benchCompleted { bench := some { canceled := false, cfg := defaults10 } }).1.bench
      = none ∧
    benchCmd { bench := none } "svc-a" defaults10 false =
      ({ bench := some { canceled := false, cfg := defaults10 } },
       RunOutcome.started) :=
  c5_single_flight { bench := some { canceled := false, cfg := defaults10 } }
    "svc-a" defaults10 false { canceled := false, cfg := defaults10 } rfl
    (by decide)

/-- Claim C6, counterexample: start a benchmark, invoke Cancel (benchStopCmd), then
immediately call Run again — it still fails with the already-running outcome, because
Cancel leaves the slot occupied and only the (asynchronous) completion callback
clears it. -/
theorem c6_counterexample :
    (benchCmd
        (benchStopCmd (benchCmd { bench := none } "svc-a" defaults10 false).1)
        "svc-a" defaults10 false).2 = RunOutcome.alreadyRunning := by
  decide

/-- Claim C6 (amended): a Run attempted after the completion callback has executed —
which is how both cancellation and natural completion eventually clear the slot —
always succeeds: from the callback's post-state, benchCmd (non-empty selection,
newBenchmark succeeding) installs a fresh session and reports started. -/
theorem c6_amended (s : OrchState) (sel : String) (cfg : BenchConfig)
    (hsel : sel ≠ "") :
    benchCmd (benchCompleted s).1 sel cfg false =
      ({ bench := some { canceled := false, cfg := cfg } }, RunOutcome.started) := by
  cases h : s.bench <;> simp [benchCompleted, h, benchCmd, hsel]

/-- Claim C6 amended, witness: after the completion callback runs on a canceled
session, a Run with target "svc-a" succeeds. -/
theorem c6_amended_witness :
    benchCmd
        (benchCompleted { bench := some { canceled := true, cfg := defaults10 } }).1
        "svc-a" defaults10 false =
      ({ bench := some { canceled := false, cfg := defaults10 } },
       RunOutcome.started) :=
  c6_amended { bench := some { canceled := true, cfg := defaults10 } }
    "svc-a" defaults10 (by decide)

/-! ## Forward deletion (forwardView.deleteCmd) -/

/-- The confirmed branch of deleteCmd (forward.go lines 212-224): look the selection
up in app.forwarders; when missing, log and return without failing; when present,
call Stop on the forwarder and delete its entry. The registry is embedded as its
(unique) key list; the second component is the fqn whose background transport was
stopped, if any. -/
def deleteConfirm (forwarders : List String) (sel : String) :
    List String × Option String :=
  if sel ∈ forwarders then (forwarders.erase sel, some sel)
  else (forwarders, none)

/-- Claim C7: deleting is idempotent-on-missing — for an fqn not in the registry the
registry is unchanged and no transport is stopped — while for a present fqn its
transport is stopped and exactly its entry is removed (the fqn is gone, every other
entry survives). Registry keys are unique (Go map), hence the Nodup hypothesis. -/
theorem c7_stop (forwarders : List String) (sel : String)
    (hnd : forwarders.Nodup) :
    (sel ∉ forwarders → deleteConfirm forwarders sel = (forwarders, none)) ∧
    (sel ∈ forwarders →
      (deleteConfirm forwarders sel).2 = some sel ∧
      sel ∉ (deleteConfirm forwarders sel).1 ∧
      ∀ x ∈ forwarders, x ≠ sel → x ∈ (deleteConfirm forwarders sel).1) := by
  constructor
  · intro h
    simp [deleteConfirm, h]
  · intro h
    refine ⟨by simp [deleteConfirm, h], ?_, ?_⟩
    · simp only [deleteConfirm, if_pos h]
      intro hmem
      exact absurd rfl ((List.Nodup.mem_erase_iff hnd).1 hmem).1
    · intro x hx hne
      simp only [deleteConfirm, if_pos h]
      exact (List.Nodup.mem_erase_iff hnd).2 ⟨hne, hx⟩

/-- Claim C7, witness: on the registry ["ns/a|c1", "ns/b|c2"], deleting "ns/a|c1"
stops it and removes exactly its entry, and deleting the absent "ns/c|c3" leaves the
registry unchanged and stops nothing. -/
theorem c7_stop_witness :
    deleteConfirm ["ns/a|c1", "ns/b|c2"] "ns/c|c3" = (["ns/a|c1", "ns/b|c2"], none) ∧
    (deleteConfirm ["ns/a|c1", "ns/b|c2"] "ns/a|c1").2 = some "ns/a|c1" ∧
    "ns/a|c1" ∉ (deleteConfirm ["ns/a|c1", "ns/b|c2"] "ns/a|c1").1 ∧
    "ns/b|c2" ∈ (deleteConfirm ["ns/a|c1", "ns/b|c2"] "ns/a|c1").1 := by
  have h1 := (c7_stop ["ns/a|c1", "ns/b|c2"] "ns/c|c3" (by decide)).1 (by decide)
  have h2 := (c7_stop ["ns/a|c1", "ns/b|c2"] "ns/a|c1" (by decide)).2 (by decide)
  exact ⟨h1, h2.1, h2.2.1, h2.2.2 "ns/b|c2" (by decide) (by decide)⟩

/-! ## Benchmark config file watcher (watchK9sDir / updateBenchConfig / benchConfig) -/

/-- Modelled from the spec: config.K9sHome (constant outside src/), the fixed
per-user configuration directory watched for benchmark-config edits. -/
def k9sHome : String := ".k9s"

/-- Modelled from the spec: config.K9sBench (constant outside src/), the base name of
the per-cluster benchmark-defaults file. -/
def k9sBench : String := "bench"

/-- benchConfig (src/internal/views/forward.go lines 373-375): the expected
benchmark-config file for a cluster, filepath.Join(K9sHome, K9sBench+"-"+cluster+
".yml"), with Join embedded as separator concatenation. -/
def benchConfig (cluster : String) : String :=
  k9sHome ++ "/" ++ (k9sBench ++ "-" ++ cluster ++ ".yml")

/-- updateBenchConfig (forward.go lines 351-371) over a finite trace of filesystem
event names: the expected file name is computed once, before the loop, from the
cluster selected when the loop starts; each event then dispatches the reload callback
(via QueueUpdateDraw) iff that captured name is empty or the event's name equals it.
Returns the event names that dispatched. -/
def updateBenchConfigRun (clusterAtStart : String) (events : List String) :
    List String :=
  let file := benchConfig clusterAtStart
  events.filter (fun e => (file == "") || (e == file))

/-- The dispatch rule as the spec words it, for comparison: recompute the expected
file name from the cluster selected at the time of the event and dispatch exactly on
match. -/
def specWatchDispatches (clusterAtEvent evtName : String) : Bool :=
  evtName == benchConfig clusterAtEvent

/-- Claim C8, counterexample: a watch loop started while cluster "a" was selected,
receiving an event for cluster "b"'s benchmark file after the selection changed to
"b", does not dispatch the callback — although the spec's per-event recomputation
rule says it must. The expected name is captured once at loop start, not recomputed
per event. -/
theorem c8_counterexample :
    updateBenchConfigRun "a" [benchConfig "b"] = [] ∧
    specWatchDispatches "b" (benchConfig "b") = true := by
  decide

/-- Claim C8 (amended): the expected file name is computed once, from the cluster
selected when the watch loop starts; since benchConfig never returns the empty
string, the callback is dispatched through the dispatcher exactly for the events
whose name equals that captured name (the empty-name branch of the code is dead). -/
theorem c8_amended (clusterAtStart : String) (events : List String) :
    benchConfig clusterAtStart ≠ "" ∧
    updateBenchConfigRun clusterAtStart events =
      events.filter (fun e => e == benchConfig clusterAtStart) := by
  have hne : benchConfig clusterAtStart ≠ "" := by
    intro h
    have hlen := congrArg String.length h
    simp [benchConfig, String.length_append, k9sHome, k9sBench] at hlen
    exact absurd hlen.1 (by decide)
  refine ⟨hne, ?_⟩
  have hbeq : (benchConfig clusterAtStart == "") = false :=
    beq_eq_false_iff_ne.2 hne
  simp only [updateBenchConfigRun, hbeq, Bool.false_or]

/-- Claim C8 amended, witness: for the loop started under cluster "a", only events
matching cluster "a"'s file dispatch — the captured-name filter evaluated on a
concrete trace. -/
theorem c8_amended_witness :
    benchConfig "a" ≠ "" ∧
    updateBenchConfigRun "a" [benchConfig "a", benchConfig "b", "other"] =
      [benchConfig "a", benchConfig "b", "other"].filter
        (fun e => e == benchConfig "a") :=
  c8_amended "a" [benchConfig "a", benchConfig "b", "other"]

/-! ## Forwards-table hydration (forwardView.hydrate) -/

/-- One registered port-forward as hydrate reads it: Path() (namespace/pod),
Container(), Ports() and Age(). -/
structure Forwarder where
  path : String
  container : String
  ports : List String
  age : String
deriving DecidableEq, Repr

/-- resource row-event actions (resource.New / Update / Delete / Unchanged). -/
inductive RowAction
  | new
  | update
  | delete
  | unchanged
deriving DecidableEq, Repr

/-- resource.RowEvent: an action plus the row's fields and per-refresh deltas. -/
structure RowEvent where
  action : RowAction
  fields : List String
  deltas : List String
deriving DecidableEq, Repr

/-- resource.TableData: header, numeric columns (Go map keys), rows keyed by
resource identity (Go map embedded as a unique-key association list), and the
namespace scope. -/
structure TableData where
  header : List String
  numCols : List String
  rows : List (String × RowEvent)
  ns : String
deriving DecidableEq, Repr

/-- Modelled from the spec: resource.AllNamespaces (outside src/), the all-namespaces
scope marker. -/
def allNamespaces : String := "*"

/-- initHeader (forward.go lines 294-301): the forwards table's fixed header, the
numeric C and N columns, empty rows, all-namespaces scope. -/
def initHeader : TableData :=
  { header := ["NAMESPACE", "NAME", "CONTAINER", "PORTS", "URL", "C", "N", "AGE"],
    numCols := ["C", "N"], rows := [], ns := allNamespaces }

/-- Modelled from the spec: helper namespaced (outside src/) splits a
"namespace/pod" path into its two components. -/
def namespaced (p : String) : String × String :=
  match p.splitOn "/" with
  | [a, b] => (a, b)
  | _ => ("", p)

/-- Modelled from the spec: helper urlFor (outside src/) renders the URL column from
the effective HTTP config and the local port. -/
def urlFor (cfg : BenchConfig) (co port : String) : String :=
  "http://localhost:" ++ port ++ cfg.Path ++ "|" ++ co

/-- Modelled from the spec: helper asNum (outside src/) renders the numeric C/N
columns as strings. -/
def asNum (n : Int) : String := toString n

/-- Go map assignment m[k] = v on the rows association list: replace the binding when
the key is present, append it otherwise. -/
def mapInsert (m : List (String × RowEvent)) (k : String) (v : RowEvent) :
    List (String × RowEvent) :=
  if m.any (fun q => q.1 == k) then
    m.map (fun q => if q.1 == k then (k, v) else q)
  else m ++ [(k, v)]

/-- The row event hydrate builds for one forwarder (forward.go lines 252-270):
effective C/N and config from loadConfig keyed by containerID(Path, Container), the
eight display fields, action resource.New, and deltas equal to fields. -/
def fwdRow (dc dn : Int) (cc : String → Option BenchConfig) (f : Forwarder) :
    RowEvent :=
  let cn := loadConfig dc dn (containerID f.path f.container) cc
  let ports := (f.ports.headD "").splitOn ":"
  let nsna := namespaced f.path
  let fields := [nsna.1, nsna.2, f.container, String.intercalate "," f.ports,
                 urlFor cn.2.2 f.container (ports.headD ""), asNum cn.1,
                 asNum cn.2.1, f.age]
  { action := RowAction.new, fields := fields, deltas := fields }

/-- hydrate (forward.go lines 248-274): fold over the registered forwarders, storing
each row under the key f.Path() — the namespace/pod path, not the full
pod-and-container fqn. -/
def hydrate (dc dn : Int) (cc : String → Option BenchConfig)
    (fwds : List Forwarder) : TableData :=
  { initHeader with
    rows := fwds.foldl
      (fun rows f => mapInsert rows f.path (fwdRow dc dn cc f)) [] }

/-- Every entry of a map insertion is either an old entry or the new binding. -/
theorem mem_mapInsert {m : List (String × RowEvent)} {k : String} {v : RowEvent}
    {p : String × RowEvent} (h : p ∈ mapInsert m k v) : p ∈ m ∨ p = (k, v) := by
  unfold mapInsert at h
  by_cases hc : m.any (fun q => q.1 == k)
  · rw [if_pos hc] at h
    obtain ⟨q, hq, hqe⟩ := List.mem_map.1 h
    by_cases hk : (q.1 == k) = true
    · rw [if_pos hk] at hqe
      exact Or.inr hqe.symm
    · rw [if_neg hk] at hqe
      exact Or.inl (hqe ▸ hq)
  · rw [if_neg hc] at h
    rcases List.mem_append.1 h with h1 | h1
    · exact Or.inl h1
    · exact Or.inr (by simpa using h1)

/-- Every entry produced by hydrate's fold is either inherited from the accumulator
or the row of one of the folded forwarders, keyed by that forwarder's path. -/
theorem mem_hydrate_fold (dc dn : Int) (cc : String → Option BenchConfig) :
    ∀ (fwds : List Forwarder) (m : List (String × RowEvent))
      (p : String × RowEvent),
      p ∈ fwds.foldl (fun rows f => mapInsert rows f.path (fwdRow dc dn cc f)) m →
      p ∈ m ∨ ∃ f ∈ fwds, p = (f.path, fwdRow dc dn cc f)
  | [], _, _, h => Or.inl h
  | f :: rest, m, p, h => by
      rcases mem_hydrate_fold dc dn cc rest _ p h with h1 | ⟨g, hg, hpe⟩
      · rcases mem_mapInsert h1 with h2 | h2
        · exact Or.inl h2
        · exact Or.inr ⟨f, List.mem_cons_self f rest, h2⟩
      · exact Or.inr ⟨g, List.mem_cons_of_mem f hg, hpe⟩

/-- Claim C10: hydrate keys each row by the session's namespace/pod path alone (every
key is some session's path, not a pod-and-container fqn), every emitted row has
action New and deltas equal to fields, and consequently two sessions on different
containers of the same pod hydrate to a single row for that pod. -/
theorem c10_hydrate (dc dn : Int) (cc : String → Option BenchConfig)
    (fwds : List Forwarder) :
    (∀ k e, (k, e) ∈ (hydrate dc dn cc fwds).rows →
      e.action = RowAction.new ∧ e.deltas = e.fields ∧
      k ∈ fwds.map Forwarder.path) ∧
    (∀ f g : Forwarder, f.path = g.path →
      ((hydrate dc dn cc [f, g]).rows).length = 1) := by
  constructor
  · intro k e h
    rcases mem_hydrate_fold dc dn cc fwds [] (k, e) h with h1 | ⟨f, hf, heq⟩
    · exact absurd h1 (List.not_mem_nil _)
    · obtain ⟨hk, he⟩ := Prod.mk.injEq .. ▸ heq
      refine ⟨?_, ?_, ?_⟩
      · rw [he]
        rfl
      · rw [he]
        rfl
      · exact hk ▸ List.mem_map.2 ⟨f, hf, rfl⟩
  · intro f g hp
    simp [hydrate, mapInsert, hp]

/-- Claim C10, witness: two forward sessions on containers "c1" and "c2" of the same
pod "ns/po" hydrate to a table with exactly one row. -/
theorem c10_hydrate_witness :
    ((hydrate 10 100 ccx
        [{ path := "ns/po", container := "c1", ports := ["8080:80"], age := "12m" },
         { path := "ns/po", container := "c2", ports := ["9090:90"], age := "3m" }]
      ).rows).length = 1 :=
  (c10_hydrate 10 100 ccx
      [{ path := "ns/po", container := "c1", ports := ["8080:80"], age := "12m" },
       { path := "ns/po", container := "c2", ports := ["9090:90"], age := "3m" }]).2
    { path := "ns/po", container := "c1", ports := ["8080:80"], age := "12m" }
    { path := "ns/po", container := "c2", ports := ["9090:90"], age := "3m" }
    rfl

end K9s
